import Mathlib

/-!
Shallow embedding of the ShopSight frontend orchestration layer.

Source files embedded:
- `frontend/src/components/AIAgent.tsx` — agent query normalization
  (`handleAgentQuery`, lines 31–67), suggestions loading (`loadSuggestions`,
  lines 69–82), tab switching (lines 119–133), send-button disabling
  (line 149) and the Enter-key invocation path (line 145).
- the Home page component (`page.tsx`, in `src/unnamed/part_000`) —
  `handleSearch` (lines 52–100) and `handleProductSelect` (lines 102–131),
  together with the type declarations of `types` (lines 1–30).

Conventions of the embedding:
- JSON values are the inductive `Json` below.  JSON numbers are modelled as
  `Int` (every raw numeric payload exercised by the properties is integral;
  this keeps JavaScript's `String(n)` coercion exact on the modelled values).
- JavaScript property access `data.k` is `jsGet`: it raises a `TypeError`
  when the base value is `null` (modelled as `Except.error`), yields the
  field when the base is an object containing it, and yields `undefined`
  (modelled as `none`) otherwise (absent field, or property access on a
  boxed primitive / array).
- Asynchronous handlers are split into a start phase (the synchronous prefix
  up to the first `await`, which also issues the network calls) and a settle
  phase (the continuation after the `await`); traces of such phases model
  the event-loop interleavings.  Each network call's eventual outcome is
  supplied as data when the call is issued; `none`/failure constructors
  model rejected promises (transport errors, and `.json()` decode failures).
-/

/-- JSON values (numbers restricted to integers, see the header comment). -/
inductive Json where
  | null
  | bool (flag : Bool)
  | num (value : Int)
  | str (text : String)
  | arr (items : List Json)
  | obj (entries : List (String × Json))

mutual

/-- Decidable equality of JSON values (written by hand: the automatic
derivation does not handle the nesting through `List`). -/
def jsonDecEq : (a b : Json) → Decidable (a = b)
  | Json.null, Json.null => isTrue rfl
  | Json.bool a, Json.bool b =>
      match decEq a b with
      | isTrue h => isTrue (h ▸ rfl)
      | isFalse h => isFalse (fun e => h (by cases e; rfl))
  | Json.num a, Json.num b =>
      match decEq a b with
      | isTrue h => isTrue (h ▸ rfl)
      | isFalse h => isFalse (fun e => h (by cases e; rfl))
  | Json.str a, Json.str b =>
      match decEq a b with
      | isTrue h => isTrue (h ▸ rfl)
      | isFalse h => isFalse (fun e => h (by cases e; rfl))
  | Json.arr a, Json.arr b =>
      match jsonListDecEq a b with
      | isTrue h => isTrue (h ▸ rfl)
      | isFalse h => isFalse (fun e => h (by cases e; rfl))
  | Json.obj a, Json.obj b =>
      match jsonFieldsDecEq a b with
      | isTrue h => isTrue (h ▸ rfl)
      | isFalse h => isFalse (fun e => h (by cases e; rfl))
  | Json.null, Json.bool _ => isFalse (fun h => nomatch h)
  | Json.null, Json.num _ => isFalse (fun h => nomatch h)
  | Json.null, Json.str _ => isFalse (fun h => nomatch h)
  | Json.null, Json.arr _ => isFalse (fun h => nomatch h)
  | Json.null, Json.obj _ => isFalse (fun h => nomatch h)
  | Json.bool _, Json.null => isFalse (fun h => nomatch h)
  | Json.bool _, Json.num _ => isFalse (fun h => nomatch h)
  | Json.bool _, Json.str _ => isFalse (fun h => nomatch h)
  | Json.bool _, Json.arr _ => isFalse (fun h => nomatch h)
  | Json.bool _, Json.obj _ => isFalse (fun h => nomatch h)
  | Json.num _, Json.null => isFalse (fun h => nomatch h)
  | Json.num _, Json.bool _ => isFalse (fun h => nomatch h)
  | Json.num _, Json.str _ => isFalse (fun h => nomatch h)
  | Json.num _, Json.arr _ => isFalse (fun h => nomatch h)
  | Json.num _, Json.obj _ => isFalse (fun h => nomatch h)
  | Json.str _, Json.null => isFalse (fun h => nomatch h)
  | Json.str _, Json.bool _ => isFalse (fun h => nomatch h)
  | Json.str _, Json.num _ => isFalse (fun h => nomatch h)
  | Json.str _, Json.arr _ => isFalse (fun h => nomatch h)
  | Json.str _, Json.obj _ => isFalse (fun h => nomatch h)
  | Json.arr _, Json.null => isFalse (fun h => nomatch h)
  | Json.arr _, Json.bool _ => isFalse (fun h => nomatch h)
  | Json.arr _, Json.num _ => isFalse (fun h => nomatch h)
  | Json.arr _, Json.str _ => isFalse (fun h => nomatch h)
  | Json.arr _, Json.obj _ => isFalse (fun h => nomatch h)
  | Json.obj _, Json.null => isFalse (fun h => nomatch h)
  | Json.obj _, Json.bool _ => isFalse (fun h => nomatch h)
  | Json.obj _, Json.num _ => isFalse (fun h => nomatch h)
  | Json.obj _, Json.str _ => isFalse (fun h => nomatch h)
  | Json.obj _, Json.arr _ => isFalse (fun h => nomatch h)

/-- Decidable equality of JSON value lists (array elements). -/
def jsonListDecEq : (a b : List Json) → Decidable (a = b)
  | [], [] => isTrue rfl
  | [], _ :: _ => isFalse (fun h => nomatch h)
  | _ :: _, [] => isFalse (fun h => nomatch h)
  | x :: xs, y :: ys =>
      match jsonDecEq x y, jsonListDecEq xs ys with
      | isTrue h1, isTrue h2 => isTrue (h1 ▸ h2 ▸ rfl)
      | isFalse h1, _ => isFalse (fun e => h1 (by cases e; rfl))
      | _, isFalse h2 => isFalse (fun e => h2 (by cases e; rfl))

/-- Decidable equality of JSON object field lists. -/
def jsonFieldsDecEq : (a b : List (String × Json)) → Decidable (a = b)
  | [], [] => isTrue rfl
  | [], _ :: _ => isFalse (fun h => nomatch h)
  | _ :: _, [] => isFalse (fun h => nomatch h)
  | (k, v) :: xs, (k2, v2) :: ys =>
      match decEq k k2, jsonDecEq v v2, jsonFieldsDecEq xs ys with
      | isTrue h0, isTrue h1, isTrue h2 => isTrue (h0 ▸ h1 ▸ h2 ▸ rfl)
      | isFalse h0, _, _ => isFalse (fun e => h0 (by cases e; rfl))
      | _, isFalse h1, _ => isFalse (fun e => h1 (by cases e; rfl))
      | _, _, isFalse h2 => isFalse (fun e => h2 (by cases e; rfl))

end

instance : DecidableEq Json := jsonDecEq

instance {ε α : Type} [DecidableEq ε] [DecidableEq α] : DecidableEq (Except ε α) :=
  fun a b =>
    match a, b with
    | Except.ok x, Except.ok y =>
        match decEq x y with
        | isTrue h => isTrue (h ▸ rfl)
        | isFalse h => isFalse (fun e => h (by cases e; rfl))
    | Except.error x, Except.error y =>
        match decEq x y with
        | isTrue h => isTrue (h ▸ rfl)
        | isFalse h => isFalse (fun e => h (by cases e; rfl))
    | Except.ok _, Except.error _ => isFalse (fun h => nomatch h)
    | Except.error _, Except.ok _ => isFalse (fun h => nomatch h)

/-- First binding of a key in a JSON object field list. -/
def lookupField : List (String × Json) → String → Option Json
  | [], _ => none
  | (k, v) :: rest, key => if k = key then some v else lookupField rest key

/-- JavaScript property access on a non-`null` base: the field's value for an
object that has it, `undefined` (= `none`) otherwise. -/
def jsGetOpt : Json → String → Option Json
  | Json.obj fields, key => lookupField fields key
  | _, _ => none

/-- JavaScript property access `base.key`.  Reading a property of `null`
throws a `TypeError`; every other JSON-decodable base value is an object or
boxes to one, so the access succeeds (possibly with `undefined`). -/
def jsGet (base : Json) (key : String) : Except Unit (Option Json) :=
  match base with
  | Json.null => Except.error ()
  | b => Except.ok (jsGetOpt b key)

/-- JavaScript truthiness of a JSON value: `null`, `false`, `0` and `""` are
falsy; every other JSON value (including `[]` and `{}`) is truthy. -/
def truthy : Json → Bool
  | Json.null => false
  | Json.bool b => b
  | Json.num n => n ≠ 0
  | Json.str s => s ≠ ""
  | Json.arr _ => true
  | Json.obj _ => true

/-- Truthiness of a possibly-`undefined` value (`undefined` is falsy). -/
def truthyOpt : Option Json → Bool
  | none => false
  | some v => truthy v

mutual

/-- `Array.prototype.join(",")` over stringified elements. -/
def jsStringElems : List Json → String
  | [] => ""
  | [v] => jsStringElem v
  | v :: rest => jsStringElem v ++ "," ++ jsStringElems rest
termination_by structural l => l

/-- One element of an array join: `null` renders as the empty string, every
other value by its `String(·)` coercion. -/
def jsStringElem : Json → String
  | Json.null => ""
  | Json.bool b => cond b "true" "false"
  | Json.num n => toString n
  | Json.str s => s
  | Json.arr elems => jsStringElems elems
  | Json.obj _ => "[object Object]"
termination_by structural j => j

end

/-- JavaScript `String(v)` coercion of a JSON value.  Arrays stringify as the
comma-separated join of their elements, with `null` elements rendered empty;
objects stringify as `"[object Object]"`. -/
def jsString : Json → String
  | Json.null => "null"
  | Json.bool b => cond b "true" "false"
  | Json.num n => toString n
  | Json.str s => s
  | Json.arr elems => jsStringElems elems
  | Json.obj _ => "[object Object]"

/-- `v ?? d`: JavaScript nullish coalescing (`undefined` and `null` fall
through to the default). -/
def nullishDefault : Option Json → Json → Json
  | none, d => d
  | some Json.null, d => d
  | some v, _ => v

/-- The normalized agent response committed by `handleAgentQuery`
(AIAgent.tsx lines 50–59).  `recommendations` and `next_steps` hold the raw
array elements unchanged in the array branch, hence `List Json`;
`confidence` holds a JSON number. -/
structure AgentResponse where
  analysis : String
  recommendations : List Json
  confidence : Int
  next_steps : List Json
deriving DecidableEq

/-- The string-or-array branch used for both `recommendations` (lines 52–54)
and `next_steps` (lines 56–58): `Array.isArray(v) ? v : (v ? [String(v)] : [])`,
applied to a possibly-`undefined` field value. -/
def normField : Option Json → List Json
  | some (Json.arr elems) => elems
  | some v => if truthy v then [Json.str (jsString v)] else []
  | none => []

/-- The normalization performed by `handleAgentQuery` on a decoded response
body `data` (AIAgent.tsx lines 50–59).  Field access on a `null` body raises
(`Except.error`), exactly as `data.analysis` would in JavaScript. -/
def normalizeAgent (data : Json) : Except Unit AgentResponse := do
  let analysisRaw ← jsGet data "analysis"
  let recRaw ← jsGet data "recommendations"
  let confRaw ← jsGet data "confidence"
  let stepsRaw ← jsGet data "next_steps"
  Except.ok
    { analysis := jsString (nullishDefault analysisRaw (Json.str ""))
      recommendations := normField recRaw
      confidence :=
        match confRaw with
        | some (Json.num n) => n
        | _ => 0
      next_steps := normField stepsRaw }

/-- The string-or-array rule as the specification words it, for comparison
with `normField`: an array is used "with each element coerced to text"; a
truthy ("non-empty") non-array value becomes a one-element list; an absent,
`null` or otherwise falsy value becomes the empty list. -/
def specNormField : Option Json → List Json
  | some (Json.arr elems) => elems.map (fun v => Json.str (jsString v))
  | some v => if truthy v then [Json.str (jsString v)] else []
  | none => []

/-- The string-or-array rule as amended: an array is used as-is, its elements
kept unchanged (not coerced to text); the non-array branches are as in the
specification. -/
def amendedNormField : Option Json → List Json
  | some (Json.arr elems) => elems
  | some v => if truthy v then [Json.str (jsString v)] else []
  | none => []

/-! ## Domain types (`types`, part_000 lines 1–30)

`number` fields are modelled as `ℚ` (the mocked payloads carry decimal
prices such as `150.00`). -/

/-- `Product` (types lines 1–8). -/
structure Product where
  product_id : String
  name : String
  category : String
  price : ℚ
  brand : String
  description : String
deriving DecidableEq

/-- `SalesData` (types lines 10–15). -/
structure SalesData where
  product_id : String
  dates : List String
  sales : List ℚ
  units_sold : List ℚ
deriving DecidableEq

/-- `Forecast` (types lines 17–22). -/
structure Forecast where
  product_id : String
  next_month_forecast : ℚ
  confidence : ℚ
  trend : String
deriving DecidableEq

/-- `CustomerSegment` (types lines 24–30). -/
structure CustomerSegment where
  name : String
  percentage : ℚ
  avg_age : ℚ
  interests : List String
  purchase_frequency : String
deriving DecidableEq

/-! ## `handleSearch` (page component, part_000 lines 52–100) -/

/-- The outcome of the `fetch` to `POST /search` together with body decoding:
either the network call rejects, or an HTTP response arrives with a status
and a body that decodes to a product list (`none` models a body `.json()` or
`.text()` rejection). -/
inductive SearchOutcome where
  | networkError
  | response (status : Nat) (body : Option (List Product))
deriving DecidableEq

/-- `response.ok`: status in the 2xx range. -/
def responseOk (status : Nat) : Bool :=
  200 ≤ status && status < 300

/-- The static fallback product list built in `handleSearch`'s catch block
(part_000 lines 78–95). -/
def mockResults : List Product :=
  [ { product_id := "nike_air_max_270"
      name := "Nike Air Max 270"
      category := "Running Shoes"
      price := 150
      brand := "Nike"
      description := "Comfortable running shoes with Air Max technology" }
  , { product_id := "adidas_ultraboost_22"
      name := "Adidas Ultraboost 22"
      category := "Running Shoes"
      price := 180
      brand := "Adidas"
      description := "High-performance running shoes with Boost technology" } ]

/-- The search results committed by `handleSearch` (part_000 lines 52–100):
a non-`ok` response is thrown and, like a network or decode failure, lands in
the catch block, which commits `mockResults`; an `ok` response with a decoded
body commits that body.  The handler never surfaces an error: it always
commits a result list (and resets `loading` in its `finally`). -/
def handleSearch : SearchOutcome → List Product
  | SearchOutcome.networkError => mockResults
  | SearchOutcome.response status body =>
      if responseOk status then
        match body with
        | some results => results
        | none => mockResults
      else mockResults

/-! ## `handleProductSelect` (page component, part_000 lines 102–131)

The handler is split at its `await`: the start phase runs the synchronous
prefix (`setSelectedProduct`, `setLoading(true)`) and issues the four
analytics fetches; the settle phase is the continuation after both
`Promise.all`s, which either commits all four results or, when any of the
eight awaited promises rejected, falls into the catch block and commits
nothing (the `finally` resets `loading` either way).  A trace of start and
settle actions models one event-loop interleaving. -/

/-- The decoded body of `GET /products/{id}/segments`
(`segmentsData.segments`, part_000 line 124). -/
structure SegmentsData where
  segments : List CustomerSegment
deriving DecidableEq

/-- The decoded body of `GET /products/{id}/insights`
(`insightsData.insights`, part_000 line 125). -/
structure InsightsData where
  insights : String
deriving DecidableEq

/-- The eventual outcomes of one selection run's four fetch-and-decode
promise chains; `none` models a rejection (transport error or `.json()`
failure) of that chain. -/
structure FetchOutcomes where
  sales : Option SalesData
  forecast : Option Forecast
  segments : Option SegmentsData
  insights : Option InsightsData
deriving DecidableEq

/-- The view state held by the page component's `useState` hooks
(part_000 lines 44–50). -/
structure HomeView where
  searchResults : List Product
  selectedProduct : Option Product
  salesData : Option SalesData
  forecast : Option Forecast
  segments : List CustomerSegment
  insights : String
  loading : Bool
deriving DecidableEq

/-- The initial view state (part_000 lines 44–50). -/
def initialHomeView : HomeView :=
  { searchResults := []
    selectedProduct := none
    salesData := none
    forecast := none
    segments := []
    insights := ""
    loading := false }

/-- Start phase of `handleProductSelect` (part_000 lines 103–113): commit
the selected product, set `loading`, and issue the four fetches. -/
def handleProductSelectStart (v : HomeView) (p : Product) : HomeView :=
  { v with selectedProduct := some p, loading := true }

/-- Settle phase of `handleProductSelect` (part_000 lines 115–130): when
every awaited promise resolved, commit all four results; when any rejected,
the catch block commits nothing.  `finally` resets `loading`. -/
def handleProductSelectSettle (v : HomeView) (o : FetchOutcomes) : HomeView :=
  match o.sales, o.forecast, o.segments, o.insights with
  | some salesData, some forecastData, some segmentsData, some insightsData =>
      { v with
        salesData := some salesData
        forecast := some forecastData
        segments := segmentsData.segments
        insights := insightsData.insights
        loading := false }
  | _, _, _, _ => { v with loading := false }

/-- One scheduler action on the page: a user selection (with the issued
run's eventual outcomes), or the completion of the `i`-th started run. -/
inductive HomeAction where
  | select (p : Product) (o : FetchOutcomes)
  | settle (i : Nat)
deriving DecidableEq

/-- Execution state: the view, the runs started so far (selection product
and outcomes, in start order), the indices of runs already settled, and the
number of network calls issued. -/
structure HomeExec where
  view : HomeView
  runs : List (Product × FetchOutcomes)
  settled : List Nat
  fetchCalls : Nat
deriving DecidableEq

/-- The initial execution state. -/
def initialHomeExec : HomeExec :=
  { view := initialHomeView, runs := [], settled := [], fetchCalls := 0 }

/-- One step of the page machine.  `select` runs the start phase and issues
four fetches unconditionally — `handleProductSelect` keeps no in-flight
bookkeeping and no run tag.  `settle i` runs the `i`-th run's continuation
(once); the commit consults only that run's outcomes, never which product is
currently selected. -/
def homeStep (s : HomeExec) (a : HomeAction) : HomeExec :=
  match a with
  | HomeAction.select p o =>
      { s with
        view := handleProductSelectStart s.view p
        runs := s.runs ++ [(p, o)]
        fetchCalls := s.fetchCalls + 4 }
  | HomeAction.settle i =>
      match s.runs.get? i with
      | some (_, o) =>
          if i ∈ s.settled then s
          else
            { s with
              view := handleProductSelectSettle s.view o
              settled := s.settled ++ [i] }
      | none => s

/-- Execution of a trace of actions from a state. -/
def homeExec (s : HomeExec) : List HomeAction → HomeExec
  | [] => s
  | a :: rest => homeExec (homeStep s a) rest

/-! ## The `AIAgent` component (AIAgent.tsx)

The component's `useState` hooks (lines 25–29) are the state below; the two
async handlers `handleAgentQuery` and `loadSuggestions` are each split at
their `await` into a start phase and a settle phase, with a trace of actions
modelling the event-loop interleaving, exactly as for the page component. -/

/-- `SuggestionsResponse` (AIAgent.tsx lines 19–22). -/
structure SuggestionsResponse where
  suggestions : List String
  priority : String
deriving DecidableEq

/-- The active tab (AIAgent.tsx line 29). -/
inductive AgentTab where
  | chat
  | suggestionsTab
deriving DecidableEq

/-- The outcome of a `fetch` plus body decoding for an agent request:
either the network call rejects, or a response arrives with its `ok` flag
and a decoded JSON body (`none` models a `.json()` rejection). -/
inductive AgentFetchOutcome where
  | networkError
  | response (ok : Bool) (body : Option Json)
deriving DecidableEq

/-- The `AIAgent` component state (AIAgent.tsx lines 25–29), extended with
the runs each handler has started (in start order, with each run's eventual
outcome) and which of them have settled.  The number of network calls issued
to an endpoint is the length of the corresponding run list. -/
structure AgentState where
  query : String
  agentResponse : Option AgentResponse
  suggestions : Option SuggestionsResponse
  loading : Bool
  activeTab : AgentTab
  analyzeRuns : List AgentFetchOutcome
  analyzeSettled : List Nat
  suggestionRuns : List AgentFetchOutcome
  suggestionSettled : List Nat
deriving DecidableEq

/-- The initial component state (AIAgent.tsx lines 25–29). -/
def initialAgentState : AgentState :=
  { query := ""
    agentResponse := none
    suggestions := none
    loading := false
    activeTab := AgentTab.chat
    analyzeRuns := []
    analyzeSettled := []
    suggestionRuns := []
    suggestionSettled := [] }

/-- JavaScript `String.prototype.trim()`: strip leading and trailing
whitespace. -/
def jsTrim (s : String) : String :=
  ⟨((s.data.dropWhile Char.isWhitespace).reverse.dropWhile Char.isWhitespace).reverse⟩

/-- Start phase of `handleAgentQuery` (AIAgent.tsx lines 31–45): return
early on an all-whitespace query; otherwise set `loading` and issue the
`POST /agent/analyze` fetch.  The only guard is the query-text check — the
function does not consult `loading`. -/
def handleAgentQueryStart (s : AgentState) (o : AgentFetchOutcome) : AgentState :=
  if jsTrim s.query = "" then s
  else
    { s with loading := true, analyzeRuns := s.analyzeRuns ++ [o] }

/-- Settle phase of `handleAgentQuery` (AIAgent.tsx lines 47–66): on an `ok`
response whose body decoded, normalize it and commit the result; a thrown
normalization `TypeError` is caught (no commit); a non-`ok` response or a
rejected promise commits nothing.  `finally` resets `loading`. -/
def handleAgentQuerySettle (s : AgentState) (o : AgentFetchOutcome) : AgentState :=
  match o with
  | AgentFetchOutcome.response true (some data) =>
      match normalizeAgent data with
      | Except.ok normalized => { s with agentResponse := some normalized, loading := false }
      | Except.error _ => { s with loading := false }
  | _ => { s with loading := false }

/-- Start phase of `loadSuggestions` (AIAgent.tsx lines 69–72): set
`loading` and issue the `GET /agent/suggestions/{id}` fetch. -/
def loadSuggestionsStart (s : AgentState) (o : AgentFetchOutcome) : AgentState :=
  { s with loading := true, suggestionRuns := s.suggestionRuns ++ [o] }

/-- The decoding of a suggestions body into `SuggestionsResponse` is taken
as given by the typed interface (AIAgent.tsx lines 19–22, 74–75); the model
reads the decoded record off the body's JSON object when it is one. -/
def decodeSuggestions : Json → Option SuggestionsResponse
  | Json.obj fields =>
      match lookupField fields "suggestions", lookupField fields "priority" with
      | some (Json.arr elems), some (Json.str priority) =>
          some { suggestions := elems.filterMap (fun v => match v with | Json.str s => some s | _ => none)
                 priority := priority }
      | _, _ => none
  | _ => none

/-- Settle phase of `loadSuggestions` (AIAgent.tsx lines 73–81): on an `ok`
response whose body decoded, commit the suggestions; otherwise commit
nothing.  `finally` resets `loading`. -/
def loadSuggestionsSettle (s : AgentState) (o : AgentFetchOutcome) : AgentState :=
  match o with
  | AgentFetchOutcome.response true (some body) =>
      match decodeSuggestions body with
      | some data => { s with suggestions := some data, loading := false }
      | none => { s with loading := false }
  | _ => { s with loading := false }

/-- The suggestions-tab click handler (AIAgent.tsx lines 119–123): switch
the tab and, when no suggestions result is stored, start `loadSuggestions`.
The guard consults only `suggestions` — not `loading`, and no per-product
bookkeeping exists (the component is never remounted or reset on a product
change). -/
def clickSuggestionsTab (s : AgentState) (o : AgentFetchOutcome) : AgentState :=
  let s1 := { s with activeTab := AgentTab.suggestionsTab }
  if s1.suggestions = none then loadSuggestionsStart s1 o else s1

/-- The chat-tab click handler (AIAgent.tsx line 109). -/
def clickChatTab (s : AgentState) : AgentState :=
  { s with activeTab := AgentTab.chat }

/-- The send button's `disabled` condition (AIAgent.tsx line 149). -/
def sendButtonDisabled (s : AgentState) : Bool :=
  s.loading || jsTrim s.query = ""

/-- One scheduler action on the component: an `onChange` of the query text,
an invocation of `handleAgentQuery` (via the Enter-key handler on line 145
or the send button on line 148, carrying the issued fetch's eventual
outcome), a suggestions- or chat-tab click, or the completion of the `i`-th
started run of either handler. -/
inductive AgentAction where
  | setQueryText (text : String)
  | invokeQuery (o : AgentFetchOutcome)
  | settleQuery (i : Nat)
  | clickSuggestions (o : AgentFetchOutcome)
  | clickChat
  | settleSuggestions (i : Nat)
deriving DecidableEq

/-- One step of the component machine. -/
def agentStep (s : AgentState) (a : AgentAction) : AgentState :=
  match a with
  | AgentAction.setQueryText text => { s with query := text }
  | AgentAction.invokeQuery o => handleAgentQueryStart s o
  | AgentAction.settleQuery i =>
      match s.analyzeRuns.get? i with
      | some o =>
          if i ∈ s.analyzeSettled then s
          else { handleAgentQuerySettle s o with analyzeSettled := s.analyzeSettled ++ [i] }
      | none => s
  | AgentAction.clickSuggestions o => clickSuggestionsTab s o
  | AgentAction.clickChat => clickChatTab s
  | AgentAction.settleSuggestions i =>
      match s.suggestionRuns.get? i with
      | some o =>
          if i ∈ s.suggestionSettled then s
          else { loadSuggestionsSettle s o with suggestionSettled := s.suggestionSettled ++ [i] }
      | none => s

/-- Execution of a trace of component actions from a state. -/
def agentExec (s : AgentState) : List AgentAction → AgentState
  | [] => s
  | a :: rest => agentExec (agentStep s a) rest

/-- `Array.isArray`, on a possibly-`undefined` value. -/
def isArrJson : Option Json → Bool
  | some (Json.arr _) => true
  | _ => false

/-- `typeof v === 'number'`, on a possibly-`undefined` value. -/
def jsTypeofNumber : Option Json → Bool
  | some (Json.num _) => true
  | _ => false

/-! ## Concrete data for the interleaving scenarios -/

/-- A concrete product A. -/
def productA : Product :=
  { product_id := "prod_a", name := "Product A", category := "Running Shoes"
    price := 100, brand := "BrandA", description := "first product" }

/-- A concrete product B, distinct from A. -/
def productB : Product :=
  { product_id := "prod_b", name := "Product B", category := "Running Shoes"
    price := 200, brand := "BrandB", description := "second product" }

/-- Sales data for product A. -/
def salesA : SalesData :=
  { product_id := "prod_a", dates := ["2024-01-01"], sales := [100], units_sold := [1] }

/-- Sales data for product B, distinct from A's. -/
def salesB : SalesData :=
  { product_id := "prod_b", dates := ["2024-01-01"], sales := [200], units_sold := [2] }

/-- Forecast for product A. -/
def forecastA : Forecast :=
  { product_id := "prod_a", next_month_forecast := 1000, confidence := 1, trend := "increasing" }

/-- Forecast for product B, distinct from A's. -/
def forecastB : Forecast :=
  { product_id := "prod_b", next_month_forecast := 2000, confidence := 0, trend := "decreasing" }

/-- Segments payload for product A. -/
def segmentsA : SegmentsData :=
  ⟨[{ name := "Athletes A", percentage := 60, avg_age := 28
      interests := ["running"], purchase_frequency := "monthly" }]⟩

/-- Segments payload for product B, distinct from A's. -/
def segmentsB : SegmentsData :=
  ⟨[{ name := "Casual B", percentage := 40, avg_age := 35
      interests := ["walking"], purchase_frequency := "quarterly" }]⟩

/-- Insights payload for product A. -/
def insightsA : InsightsData := ⟨"insights for product A"⟩

/-- Insights payload for product B, distinct from A's. -/
def insightsB : InsightsData := ⟨"insights for product B"⟩

/-- All four fetches of product A's run succeed. -/
def outcomesA : FetchOutcomes :=
  { sales := some salesA, forecast := some forecastA
    segments := some segmentsA, insights := some insightsA }

/-- All four fetches of product B's run succeed. -/
def outcomesB : FetchOutcomes :=
  { sales := some salesB, forecast := some forecastB
    segments := some segmentsB, insights := some insightsB }

/-- The race of claim C1: A is selected, B is selected before A's fetches
resolve, B's run settles first, and A's run settles last. -/
def c1Final : HomeExec :=
  homeExec initialHomeExec
    [ HomeAction.select productA outcomesA
    , HomeAction.select productB outcomesB
    , HomeAction.settle 1
    , HomeAction.settle 0 ]

/-- Product A's run with the forecast fetch rejected and the other three
fetches successful. -/
def c2Outcomes : FetchOutcomes :=
  { sales := some salesA, forecast := none
    segments := some segmentsA, insights := some insightsA }

/-- A single selection of A whose forecast fetch fails, run to completion. -/
def c2Final : HomeExec :=
  homeExec initialHomeExec [HomeAction.select productA c2Outcomes, HomeAction.settle 0]

/-- Product A selected twice, the second time while the first run is still
in flight. -/
def c3Final : HomeExec :=
  homeExec initialHomeExec
    [HomeAction.select productA outcomesA, HomeAction.select productA outcomesA]

/-! ## Theorems -/

/-- C1: stale-selection suppression fails on the code.  In the run where A
is selected, then B is selected before A's four fetches resolve, and A's run
settles after B's, the final committed view carries B's product identifier
but every one of its four analytics fields holds the value produced by A's
fetches — the late results for the superseded selection A are not discarded
and overwrite the state belonging to B (`handleProductSelectSettle` consults
no run tag).  The trailing inequalities certify that A's committed values
really differ from B's. -/
theorem stale_selection_not_suppressed :
    c1Final.view.selectedProduct = some productB ∧
    c1Final.view.salesData = some salesA ∧
    c1Final.view.forecast = some forecastA ∧
    c1Final.view.segments = segmentsA.segments ∧
    c1Final.view.insights = insightsA.insights ∧
    salesA ≠ salesB ∧ forecastA ≠ forecastB ∧
    segmentsA ≠ segmentsB ∧ insightsA ≠ insightsB := by
  decide

/-- C2: per-field failure recovery fails on the code.  In a single selection
of A whose forecast fetch rejects while the sales, segments and insights
fetches succeed, `Promise.all` rejects and the catch block commits nothing:
the final view holds none of the three successful results (all four fields
keep their initial values), contradicting the claim that sales, segments and
insights are committed with only forecast absent. -/
theorem single_fetch_failure_blocks_all_fields :
    c2Final.view.salesData = none ∧
    c2Final.view.forecast = none ∧
    c2Final.view.segments = [] ∧
    c2Final.view.insights = "" ∧
    c2Final.view.loading = false := by
  decide

/-- C3: idempotent re-selection fails on the code.  After selecting A, the
run is still in flight (`loading` is set and nothing has settled); selecting
A again starts a second run and issues four more network calls, for a total
of eight — `handleProductSelect` keeps no in-flight request set to reuse,
while the claim says the total remains four. -/
theorem reselect_in_flight_issues_duplicate_fetches :
    (homeExec initialHomeExec [HomeAction.select productA outcomesA]).view.loading = true ∧
    (homeExec initialHomeExec [HomeAction.select productA outcomesA]).settled = [] ∧
    c3Final.fetchCalls = 8 ∧
    c3Final.runs.length = 2 := by
  decide

/-- C4: search failure fallback.  For every search invocation whose outcome
is a network failure or a non-2xx HTTP response, `handleSearch` surfaces no
error and commits exactly the two static fallback products, Nike Air Max 270
before Adidas Ultraboost 22. -/
theorem search_failure_degrades_to_mock_results (o : SearchOutcome)
    (h : o = SearchOutcome.networkError ∨
         ∃ status body, o = SearchOutcome.response status body ∧ responseOk status = false) :
    handleSearch o = mockResults ∧
    mockResults.map Product.product_id = ["nike_air_max_270", "adidas_ultraboost_22"] := by
  constructor
  · rcases h with h | ⟨status, body, rfl, hstatus⟩
    · rw [h]; rfl
    · simp [handleSearch, hstatus]
  · rfl

/-- C4 witness: `/search` answering HTTP 500 yields exactly the two fallback
products. -/
theorem search_http500_shows_fallback :
    handleSearch (SearchOutcome.response 500 none) = mockResults ∧
    mockResults.map Product.product_id = ["nike_air_max_270", "adidas_ultraboost_22"] :=
  search_failure_degrades_to_mock_results (SearchOutcome.response 500 none)
    (Or.inr ⟨500, none, rfl, by decide⟩)

/-- The code's string-or-array branch coincides with the amended rule on
every possible field value. -/
theorem normField_eq_amendedNormField (v : Option Json) :
    normField v = amendedNormField v := by
  match v with
  | none => rfl
  | some Json.null => rfl
  | some (Json.bool _) => rfl
  | some (Json.num _) => rfl
  | some (Json.str _) => rfl
  | some (Json.arr _) => rfl
  | some (Json.obj _) => rfl

/-- On every non-`null` body, `normalizeAgent` succeeds and its result is
described field-by-field by the plain field accesses. -/
theorem normalizeAgent_nonnull (raw : Json) (h : raw ≠ Json.null) :
    normalizeAgent raw = Except.ok
      { analysis := jsString (nullishDefault (jsGetOpt raw "analysis") (Json.str ""))
        recommendations := normField (jsGetOpt raw "recommendations")
        confidence :=
          match jsGetOpt raw "confidence" with
          | some (Json.num n) => n
          | _ => 0
        next_steps := normField (jsGetOpt raw "next_steps") } := by
  cases raw with
  | null => exact absurd rfl h
  | bool _ => rfl
  | num _ => rfl
  | str _ => rfl
  | arr _ => rfl
  | obj _ => rfl

/-- C5 counterexample: the claim's array branch ("used as-is with each
element coerced to text") fails on the code at the raw response
`{recommendations: [1]}`: the code keeps the raw number `1` in the
normalized list, while the claimed rule would produce the text `"1"`. -/
theorem array_elements_not_coerced :
    (normalizeAgent (Json.obj [("recommendations", Json.arr [Json.num 1])])).toOption.map
        AgentResponse.recommendations = some [Json.num 1] ∧
    specNormField (jsGetOpt (Json.obj [("recommendations", Json.arr [Json.num 1])])
        "recommendations") = [Json.str "1"] ∧
    ([Json.num 1] : List Json) ≠ [Json.str "1"] := by
  decide

/-- C5 as amended: for every non-`null` raw response, the normalized
`recommendations` and `next_steps` are computed by the amended rule — an
array is used as-is with its elements unchanged; a truthy non-array value
becomes the one-element list of its text coercion; an absent, null or
otherwise falsy value becomes the empty list. -/
theorem agent_normalization_amended (raw : Json) (h : raw ≠ Json.null) :
    (normalizeAgent raw).toOption.map AgentResponse.recommendations =
      some (amendedNormField (jsGetOpt raw "recommendations")) ∧
    (normalizeAgent raw).toOption.map AgentResponse.next_steps =
      some (amendedNormField (jsGetOpt raw "next_steps")) := by
  rw [normalizeAgent_nonnull raw h]
  exact ⟨by simp [Except.toOption, normField_eq_amendedNormField],
         by simp [Except.toOption, normField_eq_amendedNormField]⟩

/-- C5 witness: the amended rule applied at `{recommendations: "x"}`, where
the normalized list is `["x"]`. -/
theorem agent_normalization_amended_witness :
    (Json.obj [("recommendations", Json.str "x")] ≠ Json.null) ∧
    ((normalizeAgent (Json.obj [("recommendations", Json.str "x")])).toOption.map
        AgentResponse.recommendations =
      some (amendedNormField (jsGetOpt (Json.obj [("recommendations", Json.str "x")])
        "recommendations")) ∧
     (normalizeAgent (Json.obj [("recommendations", Json.str "x")])).toOption.map
        AgentResponse.next_steps =
      some (amendedNormField (jsGetOpt (Json.obj [("recommendations", Json.str "x")])
        "next_steps"))) ∧
    amendedNormField (jsGetOpt (Json.obj [("recommendations", Json.str "x")])
        "recommendations") = [Json.str "x"] :=
  ⟨by decide, agent_normalization_amended _ (by decide), by decide⟩

/-- The component state after typing a query and invoking `handleAgentQuery`
once, while the issued request is still in flight. -/
def c6Busy : AgentState :=
  agentExec initialAgentState
    [ AgentAction.setQueryText "Should I raise the price?"
    , AgentAction.invokeQuery AgentFetchOutcome.networkError ]

/-- C6: busy rejection fails on the code.  With a query already in flight
(`loading` is set, one analyze request issued), the send button is indeed
disabled, but invoking `handleAgentQuery` again — the Enter-key handler does
exactly that — is not rejected: no `Busy` condition exists, and a second
network request to `/agent/analyze` is started. -/
theorem agent_query_while_loading_starts_second_request :
    c6Busy.loading = true ∧
    sendButtonDisabled c6Busy = true ∧
    c6Busy.analyzeRuns.length = 1 ∧
    (agentStep c6Busy (AgentAction.invokeQuery AgentFetchOutcome.networkError)).analyzeRuns.length
      = 2 := by
  decide

/-- A successful suggestions response arriving for the issued request. -/
def suggestionsOkOutcome : AgentFetchOutcome :=
  AgentFetchOutcome.response true
    (some (Json.obj [ ("suggestions", Json.arr [Json.str "Consider a seasonal bundle"])
                    , ("priority", Json.str "high") ]))

/-- Suggestions requested twice in a row, the second time while the first
fetch is still in flight; the product selection never changes. -/
def c7Final : AgentState :=
  agentExec initialAgentState
    [AgentAction.clickSuggestions suggestionsOkOutcome,
     AgentAction.clickSuggestions suggestionsOkOutcome]

/-- C7 counterexample: requesting suggestions twice for the same product
without changing the selection is claimed to perform exactly one network
call, but when the second request happens while the first fetch is still in
flight (no run settled, no stored result yet), the `!suggestions` guard is
still true and a second call to the suggestions endpoint is issued. -/
theorem suggestions_double_request_double_fetch :
    c7Final.suggestionRuns.length = 2 ∧
    c7Final.suggestionSettled = [] ∧
    c7Final.suggestions = none := by
  decide

/-- C7 as amended: once a suggestions result is stored for the current
product, requesting suggestions again (switching to the suggestions tab)
performs no network call and changes nothing but the active tab. -/
theorem suggestions_ready_no_refetch (s : AgentState) (o : AgentFetchOutcome)
    (r : SuggestionsResponse) (h : s.suggestions = some r) :
    agentStep s (AgentAction.clickSuggestions o) =
      { s with activeTab := AgentTab.suggestionsTab } := by
  simp [agentStep, clickSuggestionsTab, h]

/-- C7 witness: from a state holding a suggestions result, a further
suggestions request leaves the runs and the result untouched. -/
theorem suggestions_ready_no_refetch_witness :
    ({ initialAgentState with
        suggestions := some { suggestions := ["s1"], priority := "high" } } : AgentState).suggestions
      = some { suggestions := ["s1"], priority := "high" } ∧
    agentStep
        { initialAgentState with
          suggestions := some { suggestions := ["s1"], priority := "high" } }
        (AgentAction.clickSuggestions AgentFetchOutcome.networkError) =
      { ({ initialAgentState with
            suggestions := some { suggestions := ["s1"], priority := "high" } } : AgentState) with
        activeTab := AgentTab.suggestionsTab } :=
  ⟨rfl, suggestions_ready_no_refetch _ _ _ rfl⟩

/-- C8 counterexample: normalization is not total over JSON-decodable
inputs — on the JSON literal `null` (a decodable body the backend can
produce), the property access `data.analysis` throws a `TypeError`, so
normalization raises instead of producing a record. -/
theorem normalizeAgent_null_raises :
    normalizeAgent Json.null = Except.error () := by
  decide

/-- C8 as amended: for every JSON-decodable raw input other than the top
level literal `null` — including the empty object `{}`, arrays, strings,
numbers and booleans — normalization succeeds without raising, and (by the
type of the produced record) every typed field is present with a valid
value. -/
theorem normalizeAgent_total_on_nonnull (raw : Json) (h : raw ≠ Json.null) :
    (normalizeAgent raw).isOk = true := by
  rw [normalizeAgent_nonnull raw h]
  rfl

/-- C8 witness: normalization succeeds on the empty object. -/
theorem normalizeAgent_total_on_nonnull_witness :
    (Json.obj [] ≠ Json.null) ∧ (normalizeAgent (Json.obj [])).isOk = true :=
  ⟨by decide, normalizeAgent_total_on_nonnull _ (by decide)⟩

/-- C9: a raw response whose `confidence` field is not of numeric type (the
`typeof` check fails: wrong type such as a string, or the field absent)
normalizes without crashing and with confidence exactly `0`. -/
theorem nonnumeric_confidence_zero (fields : List (String × Json))
    (h : jsTypeofNumber (lookupField fields "confidence") = false) :
    (normalizeAgent (Json.obj fields)).toOption.map AgentResponse.confidence = some 0 := by
  rw [normalizeAgent_nonnull (Json.obj fields) (fun e => nomatch e)]
  have hget : jsGetOpt (Json.obj fields) "confidence" = lookupField fields "confidence" := rfl
  rcases h2 : lookupField fields "confidence" with _ | v
  · simp [Except.toOption, hget, h2]
  · cases v with
    | num n => rw [h2] at h; exact absurd h (by simp [jsTypeofNumber])
    | null => simp [Except.toOption, hget, h2]
    | bool _ => simp [Except.toOption, hget, h2]
    | str _ => simp [Except.toOption, hget, h2]
    | arr _ => simp [Except.toOption, hget, h2]
    | obj _ => simp [Except.toOption, hget, h2]

/-- C9 witness: a confidence of `"high"` normalizes to `0`. -/
theorem nonnumeric_confidence_zero_witness :
    jsTypeofNumber (lookupField [("confidence", Json.str "high")] "confidence") = false ∧
    (normalizeAgent (Json.obj [("confidence", Json.str "high")])).toOption.map
        AgentResponse.confidence = some 0 :=
  ⟨by decide, nonnumeric_confidence_zero _ (by decide)⟩

/-- C10: the string-or-array branch used for `recommendations` and
`next_steps` sends every present, non-array, falsy value (such as `""`, `0`
or `false`) to the empty list, and wraps exactly the truthy non-array values
into the one-element list of their text coercion. -/
theorem falsy_nonarray_yields_empty (v : Json) (h : isArrJson (some v) = false) :
    (truthy v = false → normField (some v) = []) ∧
    (truthy v = true → normField (some v) = [Json.str (jsString v)]) := by
  cases v with
  | arr _ => exact absurd h (by simp [isArrJson])
  | null => exact ⟨fun _ => rfl, fun ht => Bool.noConfusion ht⟩
  | bool b =>
      refine ⟨fun hf => ?_, fun ht => ?_⟩ <;> simp_all [normField, truthy]
  | num n =>
      refine ⟨fun hf => ?_, fun ht => ?_⟩ <;> simp_all [normField, truthy]
  | str s =>
      refine ⟨fun hf => ?_, fun ht => ?_⟩ <;> simp_all [normField, truthy]
  | obj fs =>
      exact ⟨fun hf => Bool.noConfusion hf, fun _ => rfl⟩

/-- C10 witness: the empty string is falsy and normalizes to the empty
list. -/
theorem falsy_nonarray_yields_empty_witness :
    isArrJson (some (Json.str "")) = false ∧
    truthy (Json.str "") = false ∧
    normField (some (Json.str "")) = [] :=
  ⟨by decide, by decide,
   (falsy_nonarray_yields_empty (Json.str "") (by decide)).1 (by decide)⟩
